import Mathlib

/-!
Shallow embedding of src/social_bot.py (Maurux01/socialbot).

The source file concatenates two revisions of the bot:

* revision 1: load_config (JSON file with environment overrides and
  Python truthiness), SocialBot.connect, SocialBot.post (single optional
  media path, no length check) and the argparse main returning 0 or 1;
* revision 2 (thread-capable class fragment): post with a media list,
  a 500 character validation, reply chaining and scheduled posts, plus
  create_thread.

External effects are modelled by oracles: the filesystem is a function
String -> Bool (os.path.exists / Path.exists), the Mastodon client is a
Client record of response behaviours, and every attempted filesystem or
network action is recorded in an explicit trace (the Action list inside
ApiState), in chronological order.
-/

namespace SocialBot

/-- One observable external action of the bot: a filesystem existence
check, a credential verification call, a media upload call, or a status
post call with the exact parameters the code passes to the client. -/
inductive Action where
  | fsCheck (path : String)
  | verifyCredentials
  | mediaPost (path : String)
  | statusPost (status : String) (media_ids : Option (List String))
      (visibility : String) (scheduled_at : Option String)
      (in_reply_to_id : Option String)
deriving Repr, DecidableEq

/-- Response of a successful Mastodon status post, as far as the bot
reads it: the platform-assigned id (response literal id field). -/
structure MResponse where
  id : String
deriving Repr, DecidableEq

/-- Errors the embedded code can raise.  runtimeNotConnected is the
RuntimeError of revision 1, fileNotFound its FileNotFoundError,
postError the PostError of revision 2, apiError any exception coming
out of the Mastodon client library. -/
inductive BotError where
  | runtimeNotConnected
  | fileNotFound (path : String)
  | postError (msg : String)
  | apiError (msg : String)
deriving Repr, DecidableEq

/-- The Mastodon client as an oracle: media_post behaviour per path, and
status_post behaviour per call sequence number (the n-th status_post call
of the run gets behaviour n), so successive posts can receive distinct
platform ids. -/
structure Client where
  mediaBehavior : String → Except String String
  statusBehavior : Nat → Except String MResponse

/-- The observable state threaded through the embedded code: trace of
attempted external actions in order, and how many status_post calls have
been made so far. -/
structure ApiState where
  trace : List Action
  statusCount : Nat
deriving Repr, DecidableEq

/- ------------------------------------------------------------------
Configuration loading (revision 1, src/social_bot.py lines 38-63).
------------------------------------------------------------------- -/

/-- The mastodon section of config.json as the code reads it with
dict.get: each field is present or absent. -/
structure FileConfig where
  api_base_url : Option String
  access_token : Option String
deriving Repr, DecidableEq

/-- Outcome of opening and parsing the configuration file: the file is
absent (FileNotFoundError), malformed (json.JSONDecodeError), or parses
to a JSON object whose mastodon key may be absent. -/
inductive ConfigFile where
  | missing
  | malformed
  | parsed (mastodon : Option FileConfig)
deriving Repr, DecidableEq

/-- The two environment variables the loader consults; os.getenv yields
none when the variable is unset. -/
structure Env where
  apiBaseUrl : Option String
  accessToken : Option String
deriving Repr, DecidableEq

/-- Result of load_config: either sys.exit with the given status code,
or the returned mastodon configuration dict. -/
inductive ConfigResult where
  | exited (code : Nat)
  | ok (api_base_url : Option String) (access_token : Option String)
deriving Repr, DecidableEq

/-- Python `a or b` on optional strings: the left operand wins exactly
when it is truthy (a set, non-empty string); None and the empty string
fall through to the right operand. -/
def pyOr : Option String → Option String → Option String
  | some s, b => if s = "" then b else some s
  | none, b => b

/-- Python truthiness of an optional string: truthy iff set and
non-empty. -/
def truthy : Option String → Bool
  | some s => s ≠ ""
  | none => false

/-- cfg.get with default: the mastodon section of the parsed file, or an
empty dict when the file is absent or the key is missing. -/
def fileMastodon : ConfigFile → FileConfig
  | .parsed (some m) => m
  | _ => ⟨none, none⟩

/-- load_config (lines 38-63): a missing file only logs a warning and
falls back to the environment; malformed JSON exits with status 1; each
mastodon field is the Python-or of the environment variable and the file
field; if either resolved field is falsy the process exits with status
1, otherwise the resolved mastodon dict is returned. -/
def load_config (file : ConfigFile) (env : Env) : ConfigResult :=
  match file with
  | .malformed => .exited 1
  | _ =>
    let mastodon_cfg := fileMastodon file
    let api_base := pyOr env.apiBaseUrl mastodon_cfg.api_base_url
    let access_token := pyOr env.accessToken mastodon_cfg.access_token
    if truthy api_base && truthy access_token then .ok api_base access_token
    else .exited 1

/- ------------------------------------------------------------------
Relay loop (spec sections 4.1 and 8; the relay-loop revision of the
repository is not present under src/).
------------------------------------------------------------------- -/

/-- Modelled from the spec: one unit of content from the source
platform, with its unique identifier and text body (spec section 3); the
relay-loop revision of the repository is not under src/, so SourceItem
is taken from the design text. -/
structure SourceItem where
  id : String
  text : String
deriving Repr, DecidableEq

/-- Modelled from the spec: the externally visible events of one relay
iteration, a publish call to a named destination adapter or a cursor
file write (spec sections 4.1 and 4.2). -/
inductive RelayEvent where
  | publish (dest : String) (itemId : String)
  | cursorWrite (c : String)
deriving Repr, DecidableEq

/-- Modelled from the spec: one iteration of the relay loop, whose code
is not under src/.  Following spec section 4.1: read the cursor, fetch
the most recent source item, compare its identifier to the cursor
locally; on no item or an identifier equal to the cursor do nothing;
otherwise publish to every configured destination adapter and then
persist the new identifier as the cursor.  The returned list is the
sequence of external events the iteration performs. -/
def relayIteration (cursor : Option String) (fetched : Option SourceItem)
    (destinations : List String) : List RelayEvent :=
  match fetched with
  | none => []
  | some item =>
    match cursor with
    | some c =>
      if item.id = c then []
      else (destinations.map (fun d => RelayEvent.publish d item.id)) ++ [RelayEvent.cursorWrite item.id]
    | none => (destinations.map (fun d => RelayEvent.publish d item.id)) ++ [RelayEvent.cursorWrite item.id]

/- ------------------------------------------------------------------
Revision 1: SocialBot.connect (lines 73-84), SocialBot.post (lines
86-113) and main (lines 116-137).
------------------------------------------------------------------- -/

/-- Oracle for SocialBot.connect: the outcome of the Mastodon(...)
constructor call and of account_verify_credentials. -/
structure ConnectOracle where
  construct : Except String Client
  verify : Except String Unit

/-- SocialBot.connect (lines 73-84): self.client = Mastodon(...) and
then self.client.account_verify_credentials().  If the constructor
raises, the assignment never happens and the client keeps its previous
value; if verification raises, the client keeps the freshly assigned
value (the assignment precedes the verification).  Returns the raised
error or unit, the resulting client attribute, and the action state. -/
def connect (oracle : ConnectOracle) (client : Option Client) (st : ApiState) :
    Except BotError Unit × Option Client × ApiState :=
  match oracle.construct with
  | .error e => (.error (.apiError e), client, st)
  | .ok c =>
    let st1 : ApiState := ⟨st.trace ++ [Action.verifyCredentials], st.statusCount⟩
    match oracle.verify with
    | .error e => (.error (.apiError e), some c, st1)
    | .ok _ => (.ok (), some c, st1)

/-- SocialBot.post of revision 1 (lines 86-113): raise RuntimeError when
self.client is unset; when media_path is truthy (set and non-empty, the
Python `if media_path:` test) check existence, raising FileNotFoundError
when absent, and otherwise upload it; finally call status_post with the
content, optional media ids and visibility.  Exceptions from the client
calls propagate unchanged. -/
def postV1 (fs : String → Bool) (client : Option Client) (st : ApiState)
    (content : String) (visibility : String) (media_path : Option String) :
    Except BotError Unit × ApiState :=
  match client with
  | none => (.error .runtimeNotConnected, st)
  | some c =>
    let mediaStep : Except BotError (Option (List String)) × ApiState :=
      match media_path with
      | none => (.ok none, st)
      | some p =>
        if p = "" then (.ok none, st)
        else
          let st1 : ApiState := ⟨st.trace ++ [Action.fsCheck p], st.statusCount⟩
          if fs p then
            let st2 : ApiState := ⟨st1.trace ++ [Action.mediaPost p], st1.statusCount⟩
            match c.mediaBehavior p with
            | .error e => (.error (.apiError e), st2)
            | .ok mid => (.ok (some [mid]), st2)
          else (.error (.fileNotFound p), st1)
    match mediaStep with
    | (.error e, st1) => (.error e, st1)
    | (.ok media_ids, st1) =>
      let st2 : ApiState :=
        ⟨st1.trace ++ [Action.statusPost content media_ids visibility none none], st1.statusCount + 1⟩
      match c.statusBehavior st1.statusCount with
      | .error e => (.error (.apiError e), st2)
      | .ok _ => (.ok (), st2)

/-- Everything main (lines 116-137) depends on beyond its arguments:
the configuration file, the environment, the connection oracle and the
filesystem. -/
structure MainEnv where
  file : ConfigFile
  env : Env
  oracle : ConnectOracle
  fs : String → Bool

/-- main of revision 1 (lines 116-137): load_config (its sys.exit(1)
terminates the process before the try block), then SocialBot(config)
with an unset client, then connect and post inside a try whose except
clause returns 1; on full success main returns 0.  The second component
is the trace of attempted external actions. -/
def mainV1 (m : MainEnv) (message visibility : String) (media : Option String) :
    Nat × List Action :=
  match load_config m.file m.env with
  | .exited c => (c, [])
  | .ok _ _ =>
    match connect m.oracle none ⟨[], 0⟩ with
    | (.error _, _, st) => (1, st.trace)
    | (.ok _, clientOpt, st) =>
      match postV1 m.fs clientOpt st message visibility media with
      | (.error _, st') => (1, st'.trace)
      | (.ok _, st') => (0, st'.trace)

/- ------------------------------------------------------------------
Revision 2 (thread-capable fragment): post (lines 177-227) and
create_thread (lines 229-247).
------------------------------------------------------------------- -/

/-- The media loop of the revision 2 post (lines 201-207): for each
media file, check existence with Path.exists (raising PostError when
absent) and then upload it, collecting the returned media ids.  The
raised message is the one the code wraps later; client exceptions
propagate as their messages. -/
def uploadMedia (fs : String → Bool) (c : Client) :
    ApiState → List String → List String → Except String (List String) × ApiState
  | st, acc, [] => (.ok acc, st)
  | st, acc, f :: rest =>
    let st1 : ApiState := ⟨st.trace ++ [Action.fsCheck f], st.statusCount⟩
    if fs f then
      let st2 : ApiState := ⟨st1.trace ++ [Action.mediaPost f], st1.statusCount⟩
      match c.mediaBehavior f with
      | .error e => (.error e, st2)
      | .ok mid => uploadMedia fs c st2 (acc ++ [mid]) rest
    else (.error ("Media file not found: " ++ f), st1)

/-- The status_post call of the revision 2 post (lines 210-224): the
post parameters with the None values stripped are handed to the client,
and the n-th status call of the run receives behaviour n. -/
def statusCall (c : Client) (st : ApiState) (content : String)
    (media_ids : Option (List String)) (visibility : String)
    (scheduled_at in_reply_to_id : Option String) :
    Except String MResponse × ApiState :=
  (c.statusBehavior st.statusCount,
   ⟨st.trace ++ [Action.statusPost content media_ids visibility scheduled_at in_reply_to_id],
    st.statusCount + 1⟩)

/-- post of revision 2 (lines 177-227): inside a try, first the length
validation against the 500 character Mastodon limit, then the media
loop, then status_post; the enclosing except clause wraps any raised
message into PostError with the prefix the code uses.  An empty media
list is falsy in Python, so it behaves like None and media_ids stays
None.  (The source messages contain an apostrophe which is dropped
here.) -/
def postV2 (fs : String → Bool) (c : Client) (st : ApiState) (content : String)
    (media_files : Option (List String)) (visibility : String)
    (scheduled_at in_reply_to_id : Option String) :
    Except BotError MResponse × ApiState :=
  if 500 < content.length then
    (.error (.postError ("Failed to post content: " ++ "Content exceeds Mastodon character limit of 500")), st)
  else
    match (match media_files with
           | none => ((.ok [] : Except String (List String)), st)
           | some files => uploadMedia fs c st [] files) with
    | (.error e, st1) => (.error (.postError ("Failed to post content: " ++ e)), st1)
    | (.ok mids, st1) =>
      match statusCall c st1 content (if mids.isEmpty then none else some mids)
          visibility scheduled_at in_reply_to_id with
      | (.error e, st2) => (.error (.postError ("Failed to post content: " ++ e)), st2)
      | (.ok r, st2) => (.ok r, st2)

/-- The loop body of create_thread (lines 239-245): posts are published
in order, each with in_reply_to_id equal to the id of the previous
response (None for the first); an exception from post propagates,
abandoning the responses collected so far. -/
def create_threadGo (fs : String → Bool) (c : Client) (vis : String) :
    ApiState → Option String → List String → Except BotError (List MResponse) × ApiState
  | st, _, [] => (.ok [], st)
  | st, prev, p :: rest =>
    match postV2 fs c st p none vis none prev with
    | (.error e, st1) => (.error e, st1)
    | (.ok r, st1) =>
      match create_threadGo fs c vis st1 (some r.id) rest with
      | (.error e, st2) => (.error e, st2)
      | (.ok rs, st2) => (.ok (r :: rs), st2)

/-- create_thread (lines 229-247): run the loop with previous_id
initially None and return the collected responses. -/
def create_thread (fs : String → Bool) (c : Client) (st : ApiState)
    (posts : List String) (visibility : String) :
    Except BotError (List MResponse) × ApiState :=
  create_threadGo fs c visibility st none posts

/- ------------------------------------------------------------------
Observation helpers over traces, used to state the claims.
------------------------------------------------------------------- -/

/-- The texts of the status posts attempted in a trace, in order. -/
def attemptedStatuses : List Action → List String
  | [] => []
  | Action.statusPost s _ _ _ _ :: rest => s :: attemptedStatuses rest
  | Action.fsCheck _ :: rest => attemptedStatuses rest
  | Action.mediaPost _ :: rest => attemptedStatuses rest
  | Action.verifyCredentials :: rest => attemptedStatuses rest

/-- The texts of the status posts in a trace that actually succeeded
under the client behaviour, when the first status call of the trace is
the n-th of the run: the published statuses, in order. -/
def publishedStatuses (c : Client) : Nat → List Action → List String
  | _, [] => []
  | n, Action.statusPost s _ _ _ _ :: rest =>
    match c.statusBehavior n with
    | .ok _ => s :: publishedStatuses c (n + 1) rest
    | .error _ => publishedStatuses c (n + 1) rest
  | n, Action.fsCheck _ :: rest => publishedStatuses c n rest
  | n, Action.mediaPost _ :: rest => publishedStatuses c n rest
  | n, Action.verifyCredentials :: rest => publishedStatuses c n rest

/-- The trace the claim about create_thread predicts (its words, not the
code): the given posts as status calls in list order, the first with no
reply linkage and each subsequent one in reply to the platform id of the
response to the immediately preceding post. -/
def threadTraceSpec (vis : String) : Option String → List String → List MResponse → List Action
  | _, [], _ => []
  | prev, p :: ps, r :: rs =>
    Action.statusPost p none vis none prev :: threadTraceSpec vis (some r.id) ps rs
  | prev, p :: _, [] => [Action.statusPost p none vis none prev]

/-- A client whose calls all succeed, handing out distinct platform ids
per status call, for concrete runs. -/
def okClient : Client := ⟨fun _ => .ok "m1", fun n => .ok ⟨"id" ++ Nat.repr n⟩⟩

/-- A client whose second status call (sequence number 1) fails and
whose other calls succeed, for concrete runs. -/
def failClient : Client :=
  ⟨fun _ => .ok "m1", fun n => if n = 1 then .error "boom" else .ok ⟨"ok"⟩⟩

/-- A 501 character status text, one character over the Mastodon
limit. -/
def longText : String := ⟨List.replicate 501 'a'⟩

/- ==================================================================
Theorems.
=================================================================== -/

/-- Helper: load_config only ever exits with status 1. -/
theorem load_config_exit_code (f : ConfigFile) (e : Env) (k : Nat)
    (h : load_config f e = .exited k) : k = 1 := by
  cases f with
  | malformed =>
    have h2 : ConfigResult.exited 1 = ConfigResult.exited k := h
    injection h2 with h1
    omega
  | missing =>
    simp only [load_config] at h
    split at h
    · exact absurd h (by simp)
    · injection h with h1; omega
  | parsed mo =>
    simp only [load_config] at h
    split at h
    · exact absurd h (by simp)
    · injection h with h1; omega

/-- Helper: when a mandatory field is absent from both the environment
and the (parsed or absent) file, load_config exits with status 1. -/
theorem load_config_missing_field (f : ConfigFile) (e : Env)
    (h : (e.apiBaseUrl = none ∧ (fileMastodon f).api_base_url = none)
       ∨ (e.accessToken = none ∧ (fileMastodon f).access_token = none)) :
    load_config f e = .exited 1 := by
  have hfalse : (truthy (pyOr e.apiBaseUrl (fileMastodon f).api_base_url)
      && truthy (pyOr e.accessToken (fileMastodon f).access_token)) = false := by
    rcases h with ⟨h1, h2⟩ | ⟨h1, h2⟩ <;> rw [h1, h2] <;> simp [pyOr, truthy]
  cases f with
  | malformed => rfl
  | missing => simp only [fileMastodon] at hfalse; simp [load_config, fileMastodon, hfalse]
  | parsed mo =>
    cases mo with
    | none => simp only [fileMastodon] at hfalse; simp [load_config, fileMastodon, hfalse]
    | some mm => simp only [fileMastodon] at hfalse; simp [load_config, fileMastodon, hfalse]

/-- C1: for every cursor value C and every source item I whose
identifier equals C, one iteration of the relay loop performs zero
publish calls to any destination adapter: its event list is empty, so in
particular it contains no publish event and no cursor write. -/
theorem relay_skips_seen_item (C : String) (I : SourceItem)
    (dests : List String) (h : I.id = C) :
    relayIteration (some C) (some I) dests = [] := by
  simp [relayIteration, h]

/-- Witness for relay_skips_seen_item at the spec scenario: cursor file
containing 100, newest source item with id 100. -/
theorem relay_skips_seen_item_witness :
    relayIteration (some "100") (some ⟨"100", "hello"⟩) ["mastodon"] = [] :=
  relay_skips_seen_item "100" ⟨"100", "hello"⟩ ["mastodon"] rfl

/-- C2 counterexample: with MASTODON_API_BASE_URL present in the
environment but set to the empty string and the api_base_url field
present in the file, load_config returns the file value for that field,
not the environment value, refuting precedence of every present
environment value. -/
theorem load_config_empty_env_counterexample :
    load_config (.parsed (some ⟨some "https://file.example", some "filetoken"⟩))
        ⟨some "", some "envtoken"⟩
      = .ok (some "https://file.example") (some "envtoken")
    ∧ (some "https://file.example" : Option String) ≠ some "" :=
  ⟨rfl, by decide⟩

/-- C2 (corrected): environment values take precedence only when the
environment variable is set to a non-empty string; an unset or
empty-string environment variable falls back to the configuration-file
field.  When both resolved fields are truthy, load_config returns
exactly the Python or of environment over file for each field, and that
operator picks the environment value when it is non-empty and the file
value when the environment value is unset or empty. -/
theorem load_config_env_precedence :
    (∀ (m : FileConfig) (env : Env),
        truthy (pyOr env.apiBaseUrl m.api_base_url) = true →
        truthy (pyOr env.accessToken m.access_token) = true →
        load_config (.parsed (some m)) env
          = .ok (pyOr env.apiBaseUrl m.api_base_url) (pyOr env.accessToken m.access_token))
    ∧ (∀ (b : Option String) (s : String), s ≠ "" → pyOr (some s) b = some s)
    ∧ (∀ (a b : Option String), a = none ∨ a = some "" → pyOr a b = b) := by
  refine ⟨?_, ?_, ?_⟩
  · intro m env h1 h2
    simp [load_config, fileMastodon, h1, h2]
  · intro b s hs
    simp [pyOr, hs]
  · rintro a b (rfl | rfl) <;> simp [pyOr]

/-- Witness for load_config_env_precedence: a non-empty environment URL
beats the file URL while the token, set only in the file, is taken from
the file. -/
theorem load_config_env_precedence_witness :
    load_config (.parsed (some ⟨some "https://file.example", some "filetoken"⟩))
        ⟨some "https://env.example", none⟩
      = .ok (some "https://env.example") (some "filetoken") :=
  load_config_env_precedence.1 ⟨some "https://file.example", some "filetoken"⟩
    ⟨some "https://env.example", none⟩ (by decide) (by decide)

/-- C3: when a mandatory Mastodon credential is absent from both the
configuration file and the environment, the single-shot main exits with
status 1 and an empty action trace: no credential verification, media
upload or status post is ever attempted. -/
theorem missing_credentials_exit_first (m : MainEnv) (msg vis : String)
    (media : Option String)
    (h : (m.env.apiBaseUrl = none ∧ (fileMastodon m.file).api_base_url = none)
       ∨ (m.env.accessToken = none ∧ (fileMastodon m.file).access_token = none)) :
    mainV1 m msg vis media = (1, []) := by
  have hexit := load_config_missing_field m.file m.env h
  simp [mainV1, hexit]

/-- Witness for missing_credentials_exit_first: no config file and an
environment that only provides the access token. -/
theorem missing_credentials_exit_first_witness :
    mainV1 ⟨.missing, ⟨none, some "tok"⟩, ⟨.ok okClient, .ok ()⟩, fun _ => false⟩
      "hello" "public" none = (1, []) :=
  missing_credentials_exit_first
    ⟨.missing, ⟨none, some "tok"⟩, ⟨.ok okClient, .ok ()⟩, fun _ => false⟩
    "hello" "public" none (Or.inl ⟨rfl, rfl⟩)

/-- Helper: the demonstration text is one character over the limit. -/
theorem longText_length : longText.length = 501 := by
  show (List.replicate 501 'a').length = 501
  rw [List.length_replicate]

/-- C4 counterexample: the revision 1 SocialBot.post performs no length
validation at all: a 501 character status is not rejected and the
status_post network call is made for it, succeeding. -/
theorem postV1_no_length_check_counterexample :
    500 < longText.length
    ∧ postV1 (fun _ => false) (some okClient) ⟨[], 0⟩ longText "public" none
      = (.ok (), ⟨[Action.statusPost longText none "public" none none], 1⟩) :=
  ⟨by rw [longText_length]; omega, rfl⟩

/-- C4 (corrected): the 500 character validation exists only in the
thread-capable revision 2 post, where content longer than 500
characters is rejected with a PostError before any filesystem or
network action and with the state unchanged; the revision 1
SocialBot.post has no length validation and posts oversized content
(see the counterexample). -/
theorem postV2_rejects_oversized (fs : String → Bool) (c : Client) (st : ApiState)
    (content : String) (mf : Option (List String)) (vis : String)
    (sched reply : Option String) (h : 500 < content.length) :
    postV2 fs c st content mf vis sched reply
      = (.error (.postError ("Failed to post content: "
          ++ "Content exceeds Mastodon character limit of 500")), st) := by
  simp [postV2, h]

/-- Witness for postV2_rejects_oversized on the 501 character text. -/
theorem postV2_rejects_oversized_witness :
    postV2 (fun _ => false) okClient ⟨[], 0⟩ longText none "public" none none
      = (.error (.postError ("Failed to post content: "
          ++ "Content exceeds Mastodon character limit of 500")), ⟨[], 0⟩) :=
  postV2_rejects_oversized (fun _ => false) okClient ⟨[], 0⟩ longText none "public"
    none none (by rw [longText_length]; omega)

/-- C5: the single-shot main returns only 0 or 1, and it returns 0
exactly when configuration loading, client construction, credential
verification and posting all succeed; every configuration, connection
or posting failure yields exit status 1. -/
theorem main_exit_codes (m : MainEnv) (msg vis : String) (media : Option String) :
    ((mainV1 m msg vis media).1 = 0 ∨ (mainV1 m msg vis media).1 = 1)
    ∧ ((mainV1 m msg vis media).1 = 0 ↔
        ((∃ a t, load_config m.file m.env = .ok a t)
         ∧ (connect m.oracle none ⟨[], 0⟩).1 = .ok ()
         ∧ (postV1 m.fs (connect m.oracle none ⟨[], 0⟩).2.1
              (connect m.oracle none ⟨[], 0⟩).2.2 msg vis media).1 = .ok ())) := by
  cases hl : load_config m.file m.env with
  | exited k =>
    have hk := load_config_exit_code m.file m.env k hl
    subst hk
    exact ⟨Or.inr (by simp [mainV1, hl]), by simp [mainV1, hl]⟩
  | ok a t =>
    rcases hcon : connect m.oracle none ⟨[], 0⟩ with ⟨cres, cl, cst⟩
    cases cres with
    | error e =>
      exact ⟨Or.inr (by simp [mainV1, hl, hcon]), by simp [mainV1, hl, hcon]⟩
    | ok u =>
      rcases hp : postV1 m.fs cl cst msg vis media with ⟨pres, pst⟩
      cases pres with
      | error e =>
        exact ⟨Or.inr (by simp [mainV1, hl, hcon, hp]), by simp [mainV1, hl, hcon, hp]⟩
      | ok v =>
        exact ⟨Or.inl (by simp [mainV1, hl, hcon, hp]), by simp [mainV1, hl, hcon, hp]⟩

/-- Witness for main_exit_codes: a fully successful run returns exit
code 0. -/
theorem main_exit_codes_witness :
    (mainV1 ⟨.missing, ⟨some "https://m.example", some "tok"⟩, ⟨.ok okClient, .ok ()⟩,
        fun _ => false⟩ "hello" "public" none).1 = 0 :=
  (main_exit_codes ⟨.missing, ⟨some "https://m.example", some "tok"⟩,
      ⟨.ok okClient, .ok ()⟩, fun _ => false⟩ "hello" "public" none).2.mpr
    ⟨⟨some "https://m.example", some "tok", rfl⟩, rfl, rfl⟩

/-- C6 counterexample: a missing configuration file is not fatal: with
both environment variables set, load_config returns the environment
configuration instead of exiting, and the whole single-shot run then
succeeds with exit status 0. -/
theorem missing_file_not_fatal_counterexample :
    load_config .missing ⟨some "https://m.example", some "tok"⟩
      = .ok (some "https://m.example") (some "tok")
    ∧ (∀ k, load_config .missing ⟨some "https://m.example", some "tok"⟩ ≠ .exited k)
    ∧ mainV1 ⟨.missing, ⟨some "https://m.example", some "tok"⟩, ⟨.ok okClient, .ok ()⟩,
        fun _ => false⟩ "hello" "public" none
      = (0, [Action.verifyCredentials, Action.statusPost "hello" none "public" none none]) := by
  refine ⟨rfl, ?_, rfl⟩
  intro k h
  have h2 : ConfigResult.ok (some "https://m.example") (some "tok")
      = ConfigResult.exited k := h
  exact ConfigResult.noConfusion h2

/-- C6 (corrected): a malformed configuration file is fatal (exit
status 1), and either mandatory credential (api_base_url or
access_token) absent from both the file and the environment is fatal
(exit status 1); a missing configuration file by itself is not fatal:
load_config warns, falls back to the environment, and returns the
environment values when both are set and non-empty. -/
theorem config_fatal_cases :
    (∀ e, load_config .malformed e = .exited 1)
    ∧ (∀ f e, (e.apiBaseUrl = none ∧ (fileMastodon f).api_base_url = none)
        ∨ (e.accessToken = none ∧ (fileMastodon f).access_token = none) →
        load_config f e = .exited 1)
    ∧ (∀ e : Env, truthy e.apiBaseUrl = true → truthy e.accessToken = true →
        load_config .missing e = .ok e.apiBaseUrl e.accessToken) := by
  refine ⟨fun e => rfl, ?_, ?_⟩
  · intro f e h
    exact load_config_missing_field f e h
  · rintro ⟨a, t⟩ h1 h2
    cases a with
    | none => simp [truthy] at h1
    | some s =>
      cases t with
      | none => simp [truthy] at h2
      | some u =>
        simp only [truthy, decide_eq_true_eq] at h1 h2
        simp [load_config, fileMastodon, pyOr, truthy, h1, h2]

/-- Witness for config_fatal_cases: fallback to a fully set
environment succeeds. -/
theorem config_fatal_cases_witness :
    load_config .missing ⟨some "https://env.example", some "envtok"⟩
      = .ok (some "https://env.example") (some "envtok") :=
  config_fatal_cases.2.2 ⟨some "https://env.example", some "envtok"⟩ (by decide) (by decide)

/-- C9 counterexample: connect assigns self.client before verifying
credentials, so on an instance whose connect call failed during
account_verify_credentials (connect has been called but not
successfully) post does not raise RuntimeError: it proceeds to the
status_post network call and succeeds. -/
theorem post_after_failed_connect_counterexample :
    (connect ⟨.ok okClient, .error "401 unauthorized"⟩ none ⟨[], 0⟩).1
      = .error (.apiError "401 unauthorized")
    ∧ (connect ⟨.ok okClient, .error "401 unauthorized"⟩ none ⟨[], 0⟩).2.1 = some okClient
    ∧ postV1 (fun _ => false)
        (connect ⟨.ok okClient, .error "401 unauthorized"⟩ none ⟨[], 0⟩).2.1
        (connect ⟨.ok okClient, .error "401 unauthorized"⟩ none ⟨[], 0⟩).2.2
        "hello" "public" none
      = (.ok (), ⟨[Action.verifyCredentials,
          Action.statusPost "hello" none "public" none none], 1⟩) :=
  ⟨rfl, rfl, rfl⟩

/-- C9 (corrected): post raises RuntimeError, leaving the state
untouched (no filesystem check and no network call), exactly when the
client attribute is unset; with a set client the RuntimeError branch is
unreachable.  Because connect assigns the client before verifying
credentials, an unset client is weaker than a successful connect: a
connect that fails during verification leaves the client set (see the
counterexample). -/
theorem post_requires_client :
    (∀ (fs : String → Bool) (st : ApiState) (content vis : String) (mp : Option String),
        postV1 fs none st content vis mp = (.error .runtimeNotConnected, st))
    ∧ (∀ (fs : String → Bool) (c : Client) (st : ApiState) (content vis : String)
        (mp : Option String),
        (postV1 fs (some c) st content vis mp).1 ≠ .error .runtimeNotConnected) := by
  constructor
  · intro fs st content vis mp; rfl
  · intro fs c st content vis mp
    simp only [postV1]
    cases mp with
    | none =>
      cases hb : c.statusBehavior st.statusCount <;> simp [hb]
    | some p =>
      rcases eq_or_ne p "" with hp | hp
      · subst hp
        cases hb : c.statusBehavior st.statusCount <;> simp [hb]
      · cases hf : fs p with
        | false => simp [hp, hf]
        | true =>
          cases hm : c.mediaBehavior p with
          | error e => simp [hp, hf, hm]
          | ok mid =>
            cases hb : c.statusBehavior st.statusCount <;> simp [hp, hf, hm, hb]

/-- Witness for post_requires_client: an unconnected bot raises
RuntimeError and performs no action. -/
theorem post_requires_client_witness :
    postV1 (fun _ => false) none ⟨[], 0⟩ "hello" "public" none
      = (.error .runtimeNotConnected, ⟨[], 0⟩) :=
  post_requires_client.1 (fun _ => false) ⟨[], 0⟩ "hello" "public" none

/-- Helper: the media loop only ever appends existence checks and
uploads to the trace, never a status post, and leaves the status call
counter unchanged; every uploaded file exists and lies in the maximal
prefix of the file list consisting of existing files (the loop stops at
the first missing file, so nothing at or after it is uploaded). -/
theorem uploadMedia_shape (fs : String → Bool) (c : Client) :
    ∀ (files : List String) (st : ApiState) (acc : List String),
    ∃ extra, (uploadMedia fs c st acc files).2.trace = st.trace ++ extra
      ∧ (uploadMedia fs c st acc files).2.statusCount = st.statusCount
      ∧ (∀ s mi v sc r, Action.statusPost s mi v sc r ∉ extra)
      ∧ (∀ f, Action.mediaPost f ∈ extra → fs f = true
          ∧ f ∈ files.takeWhile (fun g => fs g)) := by
  intro files
  induction files with
  | nil =>
    intro st acc
    exact ⟨[], by simp [uploadMedia], by simp [uploadMedia], by simp, by simp⟩
  | cons f rest ih =>
    intro st acc
    by_cases hf : fs f = true
    · have htw : (f :: rest).takeWhile (fun g => fs g)
          = f :: rest.takeWhile (fun g => fs g) := by
        simp [List.takeWhile_cons, hf]
      cases hm : c.mediaBehavior f with
      | error e =>
        refine ⟨[Action.fsCheck f, Action.mediaPost f], ?_, ?_, by simp, ?_⟩
        · simp [uploadMedia, hf, hm]
        · simp [uploadMedia, hf, hm]
        · intro f2 hmem
          simp at hmem
          subst hmem
          refine ⟨hf, ?_⟩
          rw [htw]
          exact List.mem_cons_self _ _
      | ok mid =>
        obtain ⟨extra, h1, h2, h3, h4⟩ :=
          ih ⟨st.trace ++ [Action.fsCheck f, Action.mediaPost f], st.statusCount⟩ (acc ++ [mid])
        refine ⟨Action.fsCheck f :: Action.mediaPost f :: extra, ?_, ?_, ?_, ?_⟩
        · simp only [uploadMedia, hf, if_true, hm]
          simp at h1
          simp [h1]
        · simp only [uploadMedia, hf, if_true, hm]
          simpa using h2
        · intro s mi v sc r hmem
          simp at hmem
          exact h3 s mi v sc r hmem
        · intro f2 hmem
          simp at hmem
          rcases hmem with rfl | h
          · refine ⟨hf, ?_⟩
            rw [htw]
            exact List.mem_cons_self _ _
          · obtain ⟨hft, htw2⟩ := h4 f2 h
            refine ⟨hft, ?_⟩
            rw [htw]
            exact List.mem_cons_of_mem _ htw2
    · refine ⟨[Action.fsCheck f], by simp [uploadMedia, hf], by simp [uploadMedia, hf],
        by simp, by simp⟩

/-- Helper: when some listed media file is absent, the media loop
raises. -/
theorem uploadMedia_missing (fs : String → Bool) (c : Client) :
    ∀ (files : List String) (st : ApiState) (acc : List String) (p : String),
    p ∈ files → fs p = false →
    ∃ e, (uploadMedia fs c st acc files).1 = .error e := by
  intro files
  induction files with
  | nil =>
    intro st acc p hp hfp
    exact absurd hp (List.not_mem_nil p)
  | cons f rest ih =>
    intro st acc p hp hfp
    by_cases hf : fs f = true
    · cases hm : c.mediaBehavior f with
      | error e => exact ⟨e, by simp [uploadMedia, hf, hm]⟩
      | ok mid =>
        have hpr : p ∈ rest := by
          rcases List.mem_cons.mp hp with rfl | h
          · rw [hfp] at hf; cases hf
          · exact h
        obtain ⟨e, he⟩ :=
          ih ⟨st.trace ++ [Action.fsCheck f, Action.mediaPost f], st.statusCount⟩
            (acc ++ [mid]) p hpr hfp
        refine ⟨e, ?_⟩
        simp only [uploadMedia, hf, if_true, hm]
        simpa using he
    · exact ⟨"Media file not found: " ++ f, by simp [uploadMedia, hf]⟩

/-- Helper: revision 2 post with no media attachments is the length
check followed by a single status call. -/
theorem postV2_nomedia (fs : String → Bool) (c : Client) (st : ApiState)
    (content vis : String) (sched reply : Option String) :
    postV2 fs c st content none vis sched reply
      = if 500 < content.length then
          (.error (.postError ("Failed to post content: "
            ++ "Content exceeds Mastodon character limit of 500")), st)
        else
          match c.statusBehavior st.statusCount with
          | .error e => (.error (.postError ("Failed to post content: " ++ e)),
              ⟨st.trace ++ [Action.statusPost content none vis sched reply], st.statusCount + 1⟩)
          | .ok r => (.ok r,
              ⟨st.trace ++ [Action.statusPost content none vis sched reply], st.statusCount + 1⟩) := by
  by_cases hlen : 500 < content.length
  · simp [postV2, hlen]
  · cases hb : c.statusBehavior st.statusCount <;> simp [postV2, statusCall, hlen, hb]

/-- C7 counterexample: a revision 2 post whose second media file is
missing has already made the media upload network call for the first
file before the missing one is discovered, so a post referencing a
missing media path can still cause a network call. -/
theorem postV2_partial_upload_counterexample :
    ("nope.png" : String) ∈ ["a.png", "nope.png"]
    ∧ (fun q => q == "a.png") "nope.png" = false
    ∧ postV2 (fun q => q == "a.png") okClient ⟨[], 0⟩ "hi" (some ["a.png", "nope.png"])
        "public" none none
      = (.error (.postError "Failed to post content: Media file not found: nope.png"),
         ⟨[Action.fsCheck "a.png", Action.mediaPost "a.png", Action.fsCheck "nope.png"], 0⟩)
    ∧ Action.mediaPost "a.png"
        ∈ (postV2 (fun q => q == "a.png") okClient ⟨[], 0⟩ "hi" (some ["a.png", "nope.png"])
            "public" none none).2.trace := by
  refine ⟨by simp, rfl, rfl, ?_⟩
  rw [show (postV2 (fun q => q == "a.png") okClient ⟨[], 0⟩ "hi" (some ["a.png", "nope.png"])
      "public" none none).2.trace
    = [Action.fsCheck "a.png", Action.mediaPost "a.png", Action.fsCheck "nope.png"] from rfl]
  simp

/-- C7 (corrected): referencing a missing media file aborts the post
with an error before the status is ever published: in revision 1
(single media path) post raises FileNotFoundError after only the
existence check; in revision 2 post raises a PostError, never reaches
status_post, and every media upload it performed is of an existing file
lying in the maximal all-existing prefix of the media list, which ends
strictly before the first missing file: neither the missing file nor
any file at or after the first missing position is ever uploaded.
Media uploads for existing files listed before the missing one have
already happened, however (see the counterexample). -/
theorem missing_media_blocks_publish :
    (∀ (fs : String → Bool) (c : Client) (st : ApiState) (content vis p : String),
        fs p = false → p ≠ "" →
        postV1 fs (some c) st content vis (some p)
          = (.error (.fileNotFound p), ⟨st.trace ++ [Action.fsCheck p], st.statusCount⟩))
    ∧ (∀ (fs : String → Bool) (c : Client) (st : ApiState) (content vis : String)
        (files : List String) (sched reply : Option String) (p : String),
        p ∈ files → fs p = false →
        ∃ e extra,
          (postV2 fs c st content (some files) vis sched reply).1 = .error e
          ∧ (postV2 fs c st content (some files) vis sched reply).2
              = ⟨st.trace ++ extra, st.statusCount⟩
          ∧ (∀ s mi v sc r, Action.statusPost s mi v sc r ∉ extra)
          ∧ (∀ f, Action.mediaPost f ∈ extra → fs f = true
              ∧ f ∈ files.takeWhile (fun g => fs g))
          ∧ Action.mediaPost p ∉ extra) := by
  constructor
  · intro fs c st content vis p hfp hne
    simp [postV1, hne, hfp]
  · intro fs c st content vis files sched reply p hp hfp
    by_cases hlen : 500 < content.length
    · refine ⟨.postError ("Failed to post content: "
          ++ "Content exceeds Mastodon character limit of 500"), [], ?_, ?_,
          by simp, by simp, by simp⟩
      · simp [postV2, hlen]
      · simp [postV2, hlen]
    · obtain ⟨e, he⟩ := uploadMedia_missing fs c files st [] p hp hfp
      obtain ⟨extra, h1, h2, h3, h4⟩ := uploadMedia_shape fs c files st []
      rcases hu : uploadMedia fs c st [] files with ⟨ures, ust⟩
      rw [hu] at he h1 h2
      have he2 : ures = .error e := he
      subst he2
      have h1b : ust.trace = st.trace ++ extra := h1
      have h2b : ust.statusCount = st.statusCount := h2
      have hpost : postV2 fs c st content (some files) vis sched reply
          = (.error (.postError ("Failed to post content: " ++ e)), ust) := by
        simp [postV2, hlen, hu]
      refine ⟨.postError ("Failed to post content: " ++ e), extra, ?_, ?_, h3, h4, ?_⟩
      · rw [hpost]
      · rw [hpost, ← h1b, ← h2b]
      · intro hmem
        have hft := (h4 p hmem).1
        rw [hfp] at hft
        simp at hft

/-- Witness for missing_media_blocks_publish, part 2, at a list whose
second file is missing. -/
theorem missing_media_blocks_publish_witness :
    ∃ e extra,
      (postV2 (fun q => q == "a.png") okClient ⟨[], 0⟩ "hi" (some ["a.png", "nope.png"])
          "public" none none).1 = .error e
      ∧ (postV2 (fun q => q == "a.png") okClient ⟨[], 0⟩ "hi" (some ["a.png", "nope.png"])
          "public" none none).2 = ⟨[] ++ extra, 0⟩
      ∧ (∀ s mi v sc r, Action.statusPost s mi v sc r ∉ extra)
      ∧ (∀ f, Action.mediaPost f ∈ extra → (f == "a.png") = true
          ∧ f ∈ (["a.png", "nope.png"] : List String).takeWhile (fun g => g == "a.png"))
      ∧ Action.mediaPost "nope.png" ∉ extra :=
  missing_media_blocks_publish.2 (fun q => q == "a.png") okClient ⟨[], 0⟩ "hi" "public"
    ["a.png", "nope.png"] none none "nope.png" (by simp) rfl

/-- Helper: a create_thread loop run in which every publish succeeds
appends exactly the chained status calls predicted by threadTraceSpec
and returns the responses of the successive status calls in order. -/
theorem create_threadGo_ok (fs : String → Bool) (c : Client) (vis : String) :
    ∀ (posts : List String) (st : ApiState) (prev : Option String) (rs : List MResponse),
    (create_threadGo fs c vis st prev posts).1 = .ok rs →
    rs.length = posts.length
    ∧ (create_threadGo fs c vis st prev posts).2
        = ⟨st.trace ++ threadTraceSpec vis prev posts rs, st.statusCount + posts.length⟩
    ∧ (∀ i, i < posts.length →
        ∃ r, rs[i]? = some r ∧ c.statusBehavior (st.statusCount + i) = .ok r) := by
  intro posts
  induction posts with
  | nil =>
    intro st prev rs h
    have h2 : (Except.ok ([] : List MResponse) : Except BotError (List MResponse)) = .ok rs := h
    injection h2 with h3
    subst h3
    refine ⟨rfl, ?_, ?_⟩
    · show st = ⟨st.trace ++ [], st.statusCount + 0⟩
      simp
    · intro i hi
      simp only [List.length_nil] at hi
      omega
  | cons p rest ih =>
    intro st prev rs h
    have hpost := postV2_nomedia fs c st p vis none prev
    by_cases hlen : 500 < p.length
    · rw [if_pos hlen] at hpost
      simp only [create_threadGo, hpost] at h
      exact Except.noConfusion h
    · rw [if_neg hlen] at hpost
      cases hb : c.statusBehavior st.statusCount with
      | error e =>
        rw [hb] at hpost
        simp only [create_threadGo, hpost] at h
        exact Except.noConfusion h
      | ok r =>
        rw [hb] at hpost
        simp only [create_threadGo, hpost] at h ⊢
        rcases hrec : create_threadGo fs c vis
            ⟨st.trace ++ [Action.statusPost p none vis none prev], st.statusCount + 1⟩
            (some r.id) rest with ⟨rres, rst⟩
        rw [hrec] at h
        cases rres with
        | error e =>
          have h7 : (Except.error e : Except BotError (List MResponse)) = .ok rs := h
          exact Except.noConfusion h7
        | ok rs2 =>
          have h4 : (Except.ok (r :: rs2) : Except BotError (List MResponse)) = .ok rs := h
          injection h4 with h5
          subst h5
          obtain ⟨ih1, ih2, ih3⟩ := ih
            ⟨st.trace ++ [Action.statusPost p none vis none prev], st.statusCount + 1⟩
            (some r.id) rs2 (by rw [hrec])
          have ih2b : rst = ⟨st.trace ++ [Action.statusPost p none vis none prev]
              ++ threadTraceSpec vis (some r.id) rest rs2, st.statusCount + 1 + rest.length⟩ := by
            have h6 := ih2
            rw [hrec] at h6
            exact h6
          refine ⟨by simp [ih1], ?_, ?_⟩
          · rw [ih2b]
            show ApiState.mk (st.trace ++ [Action.statusPost p none vis none prev]
                ++ threadTraceSpec vis (some r.id) rest rs2) (st.statusCount + 1 + rest.length)
              = ApiState.mk (st.trace ++ threadTraceSpec vis prev (p :: rest) (r :: rs2))
                (st.statusCount + (p :: rest).length)
            rw [show threadTraceSpec vis prev (p :: rest) (r :: rs2)
                = Action.statusPost p none vis none prev
                  :: threadTraceSpec vis (some r.id) rest rs2 from rfl]
            rw [List.append_assoc, List.singleton_append]
            rw [show (p :: rest).length = rest.length + 1 from rfl]
            rw [show st.statusCount + 1 + rest.length
                = st.statusCount + (rest.length + 1) from by omega]
          · intro i hi
            cases i with
            | zero =>
              refine ⟨r, by simp, ?_⟩
              simpa using hb
            | succ j =>
              have hj : j < rest.length := by
                simp only [List.length_cons] at hi
                omega
              obtain ⟨r2, hr2, hb2⟩ := ih3 j hj
              refine ⟨r2, by simpa using hr2, ?_⟩
              have hidx : st.statusCount + (j + 1) = st.statusCount + 1 + j := by omega
              rw [hidx]
              exact hb2

/-- C8: for every run of create_thread in which every publish succeeds
(the loop returns the response list rs), the posts are appended to the
trace in list order as exactly the status calls the claim describes:
the first with no reply linkage and each subsequent one in reply to the
platform-assigned id of the response to the immediately preceding post;
create_thread returns one response per input post, in the same order,
response i being the result of the i-th status call. -/
theorem create_thread_orders_and_chains (fs : String → Bool) (c : Client)
    (st : ApiState) (posts : List String) (vis : String) (rs : List MResponse)
    (h : (create_thread fs c st posts vis).1 = .ok rs) :
    rs.length = posts.length
    ∧ (create_thread fs c st posts vis).2
        = ⟨st.trace ++ threadTraceSpec vis none posts rs, st.statusCount + posts.length⟩
    ∧ (∀ i, i < posts.length →
        ∃ r, rs[i]? = some r ∧ c.statusBehavior (st.statusCount + i) = .ok r) :=
  create_threadGo_ok fs c vis posts st none rs h

/-- Witness for create_thread_orders_and_chains at a two-post thread
against a client handing out distinct ids. -/
theorem create_thread_orders_and_chains_witness :
    ([⟨"id0"⟩, ⟨"id1"⟩] : List MResponse).length = (["one", "two"] : List String).length
    ∧ (create_thread (fun _ => false) okClient ⟨[], 0⟩ ["one", "two"] "public").2
        = ⟨[] ++ threadTraceSpec "public" none ["one", "two"] [⟨"id0"⟩, ⟨"id1"⟩], 0 + 2⟩
    ∧ (∀ i, i < (["one", "two"] : List String).length →
        ∃ r, ([⟨"id0"⟩, ⟨"id1"⟩] : List MResponse)[i]? = some r
          ∧ okClient.statusBehavior (0 + i) = .ok r) :=
  create_thread_orders_and_chains (fun _ => false) okClient ⟨[], 0⟩ ["one", "two"]
    "public" [⟨"id0"⟩, ⟨"id1"⟩] rfl

/-- Helper: when the first k posts of the loop publish successfully and
publishing post k fails (oversized content or a failing status call),
the loop returns the error, having published exactly the first k
posts and attempted at most the first k + 1. -/
theorem create_threadGo_fail (fs : String → Bool) (c : Client) (vis : String) :
    ∀ (posts : List String) (k : Nat) (st : ApiState) (prev : Option String),
    (∀ i, i < k → ∃ p, posts[i]? = some p ∧ p.length ≤ 500
        ∧ ∃ r, c.statusBehavior (st.statusCount + i) = .ok r) →
    (∃ p, posts[k]? = some p ∧ (500 < p.length
        ∨ (p.length ≤ 500 ∧ ∃ e, c.statusBehavior (st.statusCount + k) = .error e))) →
    ∃ e extra,
      create_threadGo fs c vis st prev posts
        = (.error e, ⟨st.trace ++ extra, st.statusCount + (attemptedStatuses extra).length⟩)
      ∧ publishedStatuses c st.statusCount extra = posts.take k
      ∧ (attemptedStatuses extra = posts.take k
         ∨ attemptedStatuses extra = posts.take (k + 1)) := by
  intro posts
  induction posts with
  | nil =>
    intro k st prev hsucc hfail
    obtain ⟨p, hp, _⟩ := hfail
    simp at hp
  | cons q rest ih =>
    intro k st prev hsucc hfail
    have hpost := postV2_nomedia fs c st q vis none prev
    cases k with
    | zero =>
      obtain ⟨p, hp, hdisj⟩ := hfail
      have hpq : q = p := by simpa using hp
      subst hpq
      rcases hdisj with hlen | ⟨hlen, e, hb⟩
      · rw [if_pos hlen] at hpost
        refine ⟨.postError ("Failed to post content: "
            ++ "Content exceeds Mastodon character limit of 500"), [], ?_, rfl, Or.inl rfl⟩
        simp only [create_threadGo, hpost]
        rw [show attemptedStatuses [] = [] from rfl]
        simp
      · have hb2 : c.statusBehavior st.statusCount = .error e := hb
        rw [if_neg (by omega), hb2] at hpost
        refine ⟨.postError ("Failed to post content: " ++ e),
          [Action.statusPost q none vis none prev], ?_, ?_, Or.inr rfl⟩
        · simp only [create_threadGo, hpost]
          rfl
        · show publishedStatuses c st.statusCount [Action.statusPost q none vis none prev]
            = (q :: rest).take 0
          rw [show publishedStatuses c st.statusCount [Action.statusPost q none vis none prev]
              = (match c.statusBehavior st.statusCount with
                 | .ok _ => q :: publishedStatuses c (st.statusCount + 1) []
                 | .error _ => publishedStatuses c (st.statusCount + 1) []) from rfl]
          rw [hb2]
          rfl
    | succ k2 =>
      obtain ⟨p0, hp0, hlen0, r, hb0⟩ := hsucc 0 (Nat.succ_pos k2)
      have hp0q : q = p0 := by simpa using hp0
      subst hp0q
      have hb0b : c.statusBehavior st.statusCount = .ok r := hb0
      rw [if_neg (by omega), hb0b] at hpost
      have hsucc2 : ∀ i, i < k2 → ∃ p, rest[i]? = some p ∧ p.length ≤ 500
          ∧ ∃ r2, c.statusBehavior (st.statusCount + 1 + i) = .ok r2 := by
        intro i hi
        obtain ⟨p, hp, hl, r2, hbr⟩ := hsucc (i + 1) (by omega)
        refine ⟨p, by simpa using hp, hl, r2, ?_⟩
        rw [show st.statusCount + 1 + i = st.statusCount + (i + 1) from by omega]
        exact hbr
      have hfail2 : ∃ p, rest[k2]? = some p ∧ (500 < p.length
          ∨ (p.length ≤ 500 ∧ ∃ e, c.statusBehavior (st.statusCount + 1 + k2) = .error e)) := by
        obtain ⟨p, hp, hdisj⟩ := hfail
        refine ⟨p, by simpa using hp, ?_⟩
        rcases hdisj with hl | ⟨hl, e, hbe⟩
        · exact Or.inl hl
        · refine Or.inr ⟨hl, e, ?_⟩
          rw [show st.statusCount + 1 + k2 = st.statusCount + (k2 + 1) from by omega]
          exact hbe
      obtain ⟨e, extra, heq, hpub, hatt⟩ := ih k2
        ⟨st.trace ++ [Action.statusPost q none vis none prev], st.statusCount + 1⟩
        (some r.id) hsucc2 hfail2
      have hpub2 : publishedStatuses c (st.statusCount + 1) extra = rest.take k2 := hpub
      refine ⟨e, Action.statusPost q none vis none prev :: extra, ?_, ?_, ?_⟩
      · simp only [create_threadGo, hpost]
        rw [heq]
        show (Except.error e, (⟨(st.trace ++ [Action.statusPost q none vis none prev]) ++ extra,
              st.statusCount + 1 + (attemptedStatuses extra).length⟩ : ApiState))
          = (Except.error e, (⟨st.trace
              ++ (Action.statusPost q none vis none prev :: extra),
              st.statusCount + (attemptedStatuses
                (Action.statusPost q none vis none prev :: extra)).length⟩ : ApiState))
        rw [List.append_assoc, List.singleton_append]
        rw [show attemptedStatuses (Action.statusPost q none vis none prev :: extra)
            = q :: attemptedStatuses extra from rfl]
        rw [show (q :: attemptedStatuses extra).length
            = (attemptedStatuses extra).length + 1 from rfl]
        rw [show st.statusCount + 1 + (attemptedStatuses extra).length
            = st.statusCount + ((attemptedStatuses extra).length + 1) from by omega]
      · show publishedStatuses c st.statusCount
            (Action.statusPost q none vis none prev :: extra) = (q :: rest).take (k2 + 1)
        rw [show publishedStatuses c st.statusCount
              (Action.statusPost q none vis none prev :: extra)
            = (match c.statusBehavior st.statusCount with
               | .ok _ => q :: publishedStatuses c (st.statusCount + 1) extra
               | .error _ => publishedStatuses c (st.statusCount + 1) extra) from rfl]
        rw [hb0b]
        rw [show (q :: rest).take (k2 + 1) = q :: rest.take k2 from rfl]
        rw [hpub2]
      · rcases hatt with hA | hA
        · left
          show attemptedStatuses (Action.statusPost q none vis none prev :: extra)
            = (q :: rest).take (k2 + 1)
          rw [show attemptedStatuses (Action.statusPost q none vis none prev :: extra)
              = q :: attemptedStatuses extra from rfl, hA]
          rfl
        · right
          show attemptedStatuses (Action.statusPost q none vis none prev :: extra)
            = (q :: rest).take (k2 + 1 + 1)
          rw [show attemptedStatuses (Action.statusPost q none vis none prev :: extra)
              = q :: attemptedStatuses extra from rfl, hA]
          rfl

/-- C10: create_thread is not atomic: when the posts at indices 0
through k-1 publish successfully and publishing the post at index k
fails (oversized content, or the status call for it raising), the error
propagates out of create_thread, the statuses actually published are
exactly the posts at indices 0 through k-1 in order, and nothing beyond
index k is ever attempted: the attempted statuses are the first k
posts, plus the failing attempt at index k when the failure came from
the client call. -/
theorem create_thread_not_atomic (fs : String → Bool) (c : Client) (st : ApiState)
    (posts : List String) (vis : String) (k : Nat)
    (hsucc : ∀ i, i < k → ∃ p, posts[i]? = some p ∧ p.length ≤ 500
        ∧ ∃ r, c.statusBehavior (st.statusCount + i) = .ok r)
    (hfail : ∃ p, posts[k]? = some p ∧ (500 < p.length
        ∨ (p.length ≤ 500 ∧ ∃ e, c.statusBehavior (st.statusCount + k) = .error e))) :
    ∃ e extra,
      create_thread fs c st posts vis
        = (.error e, ⟨st.trace ++ extra, st.statusCount + (attemptedStatuses extra).length⟩)
      ∧ publishedStatuses c st.statusCount extra = posts.take k
      ∧ (attemptedStatuses extra = posts.take k
         ∨ attemptedStatuses extra = posts.take (k + 1)) :=
  create_threadGo_fail fs c vis posts k st none hsucc hfail

/-- Witness for create_thread_not_atomic: a three-post thread against a
client whose second status call fails: the error propagates, only the
first post is published, the third is never attempted. -/
theorem create_thread_not_atomic_witness :
    ∃ e extra,
      create_thread (fun _ => false) failClient ⟨[], 0⟩ ["a", "b", "c"] "public"
        = (.error e, ⟨[] ++ extra, 0 + (attemptedStatuses extra).length⟩)
      ∧ publishedStatuses failClient 0 extra = ["a"]
      ∧ (attemptedStatuses extra = ["a"] ∨ attemptedStatuses extra = ["a", "b"]) :=
  create_thread_not_atomic (fun _ => false) failClient ⟨[], 0⟩ ["a", "b", "c"] "public" 1
    (fun i hi => by
      have h0 : i = 0 := by omega
      subst h0
      exact ⟨"a", rfl, by decide, ⟨"ok"⟩, rfl⟩)
    ⟨"b", rfl, Or.inr ⟨by decide, "boom", rfl⟩⟩

end SocialBot
